import Mathlib

/-!
# Verification of `pyramid_heroku/migrate.py`

A shallow embedding of the graceful-DB-migration orchestrator in
`pyramid_heroku/migrate.py`.  The `Heroku` class talks to two external
systems: the Heroku platform API (HTTP via a `requests.Session`) and the
`alembic` migration tool (an external process via
`subprocess.check_output`).  We model both through an oracle environment
(`Env`) that answers the n-th API request and the n-th shell invocation,
and we record every externally visible effect (API request, shell
invocation, sleep) in a trace.  Lines printed to the local standard
output (`print(...)`) are not effects on the remote systems and are not
modelled.

Machine values: HTTP status codes are `Nat`; formation quantities are
`Int` (JSON integers); strings are Lean `String`s.  Fallible code
returns `Except RunError`; the mutable field `Heroku._formation` lives
in the explicit run state `St`.
-/

/-- A request made to the Heroku platform API by `migrate.py`.
There are exactly three shapes:
`GET /apps/{app}/formation`,
`PATCH /apps/{app}/formation` with body `{updates: [{type, quantity}, ...]}`,
`PATCH /apps/{app}` with body `{maintenance: bool}`. -/
inductive Request where
  | getFormation (app : String)
  | patchFormation (app : String) (updates : List (String × Int))
  | patchMaintenance (app : String) (state : Bool)
  deriving DecidableEq, Repr

/-- An HTTP response from the platform API: the status code, and the
parsed JSON body for the formation endpoints (a list of
`{type, quantity}` objects).  The maintenance endpoint's body is not
inspected by the code, so it is not modelled. -/
structure ApiResponse where
  status_code : Nat
  body : List (String × Int)
  deriving DecidableEq, Repr

/-- Result of running an external process:
its exit code and the captured standard output. -/
structure ShellResult where
  exitCode : Nat
  stdout : String
  deriving DecidableEq, Repr

/-- The external world: answers the n-th API request and the n-th shell
command of the run.  Indexing by call count lets the remote state change
between calls (e.g. a second formation GET may return something new). -/
structure Env where
  api : Nat → Request → ApiResponse
  shell : Nat → String → ShellResult

/-- Externally visible effects of a run, in order.  An API event records
the request together with the headers the `requests.Session` attaches
(set once in `Heroku.__init__`). -/
inductive Event where
  | apiEv (req : Request) (headers : List (String × String))
  | shellEv (cmd : String)
  | sleepEv (seconds : Nat)
  deriving DecidableEq, Repr

/-- Errors that abort a run:
`apiError` models `requests.Response.raise_for_status()` raising
`HTTPError` (it carries the offending status code);
`processError` models `subprocess.CalledProcessError` (it carries the
nonzero exit code). -/
inductive RunError where
  | apiError (status_code : Nat)
  | processError (exitCode : Nat)
  deriving DecidableEq, Repr

/-- The run state threaded through the computation: the mutable
`Heroku._formation` cache, the trace of effects so far, and the two
oracle counters. -/
structure St where
  formation_cache : Option (List (String × Int))
  trace : List Event
  nApi : Nat
  nShell : Nat
  deriving DecidableEq, Repr

/-- State at the start of a run: `__init__` sets `self._formation = None`
and nothing has been called yet. -/
def St.init : St := { formation_cache := none, trace := [], nApi := 0, nShell := 0 }

/-- Python `str()` of an `Optional[str]`: `str(None)` is the literal
text `"None"`. -/
def pyStr : Option String → String
  | none => "None"
  | some s => s

/-- The immutable part of a `Heroku` instance: constructor arguments and
the session headers built in `__init__`.  `auth_key` reads
`os.environ.get('MIGRATE_API_SECRET_HEROKU')`, which we pass in as
`secret : Option String`. -/
structure Heroku where
  app_name : String
  ini_file : String
  app_section : String
  session_headers : List (String × String)
  deriving DecidableEq, Repr

/-- `Heroku.auth_key`: `os.environ.get('MIGRATE_API_SECRET_HEROKU')`. -/
def auth_key (secret : Option String) : Option String := secret

/-- `Heroku.__init__`: stores the three arguments and installs the fixed
session headers, interpolating `auth_key` into
`f'Bearer {self.auth_key}'` (so an unset secret yields the literal
header value `"Bearer None"`). -/
def mkHeroku (app_name ini_file app_section : String) (secret : Option String) : Heroku :=
  { app_name := app_name
    ini_file := ini_file
    app_section := app_section
    session_headers :=
      [("Authorization", "Bearer " ++ pyStr (auth_key secret)),
       ("Accept", "application/vnd.heroku+json; version=3"),
       ("Content-Type", "application/json")] }

/-- Sequencing of stateful, fallible steps: an error short-circuits,
keeping the state (trace) accumulated so far. -/
def bindM {α β : Type} (x : Except RunError α × St)
    (f : α → St → Except RunError β × St) : Except RunError β × St :=
  match x with
  | (Except.ok a, s) => f a s
  | (Except.error e, s) => (Except.error e, s)

/-- Python's `in` operator on strings: substring containment. -/
def pyIn (needle haystack : String) : Bool :=
  (List.range (haystack.toList.length + 1)).any
    (fun i => needle.toList.isPrefixOf (haystack.toList.drop i))

/-- Insert into a Python dict rendered as an association list:
an existing key keeps its position and takes the new value, a new key is
appended. -/
def dictInsert (d : List (String × Int)) (k : String) (v : Int) : List (String × Int) :=
  if d.any (fun p => p.1 = k) then
    d.map (fun p => if p.1 = k then (k, v) else p)
  else
    d ++ [(k, v)]

/-- The dict comprehension `{x['type']: x['quantity'] for x in res.json()}`:
fold the JSON array into a dict with Python's insertion semantics. -/
def dictOfList (l : List (String × Int)) : List (String × Int) :=
  l.foldl (fun d p => dictInsert d p.1 p.2) []

/-- `requests.Response.raise_for_status()`: raises `HTTPError` exactly
for status codes 400–599; every other status (including non-200 codes
such as 201 or 302) passes. -/
def raise_for_status (status_code : Nat) : Except RunError Unit :=
  if 400 ≤ status_code ∧ status_code < 600 then
    Except.error (RunError.apiError status_code)
  else
    Except.ok ()

/-- `Heroku.parse_response`: on a non-200 status it prints the JSON body
(local output, not modelled), then calls `raise_for_status()` and
returns `True` when that does not raise. -/
def parse_response (res : ApiResponse) : Except RunError Bool :=
  match raise_for_status res.status_code with
  | Except.error e => Except.error e
  | Except.ok _ => Except.ok true

/-- Issue one API request through the session: the oracle answers request
number `s.nApi`, and the trace records the request together with the
session headers the `requests.Session` attaches. -/
def apiRequest (h : Heroku) (env : Env) (s : St) (req : Request) : ApiResponse × St :=
  (env.api s.nApi req,
   { s with trace := s.trace ++ [Event.apiEv req h.session_headers], nApi := s.nApi + 1 })

/-- `Heroku.shell`: `subprocess.check_output(shlex.split(cmd)).decode()`.
The process is invoked (traced) unconditionally; a nonzero exit status
raises `CalledProcessError`, otherwise the captured stdout is returned. -/
def shell (_h : Heroku) (env : Env) (s : St) (cmd : String) : Except RunError String × St :=
  let r := env.shell s.nShell cmd
  let s1 := { s with trace := s.trace ++ [Event.shellEv cmd], nShell := s.nShell + 1 }
  if r.exitCode = 0 then (Except.ok r.stdout, s1)
  else (Except.error (RunError.processError r.exitCode), s1)

/-- The alembic status-query command string built by `needs_migrate`:
`f'alembic -c {self.ini_file} -n {self.app_section} current'`. -/
def currentCmd (h : Heroku) : String :=
  "alembic -c " ++ h.ini_file ++ " -n " ++ h.app_section ++ " current"

/-- The alembic upgrade command string built by `alembic`:
`f'alembic -c {self.ini_file} -n {self.app_section} upgrade head'`. -/
def upgradeCmd (h : Heroku) : String :=
  "alembic -c " ++ h.ini_file ++ " -n " ++ h.app_section ++ " upgrade head"

/-- `Heroku.needs_migrate`: runs the status-query command, prints its
output (not modelled), and returns `'head' not in cmd` where `cmd` is
the captured stdout. -/
def needs_migrate (h : Heroku) (env : Env) (s : St) : Except RunError Bool × St :=
  bindM (shell h env s (currentCmd h)) (fun out s1 =>
    (Except.ok (!(pyIn "head" out)), s1))

/-- `Heroku.alembic`: runs the upgrade command and returns its stdout. -/
def alembic (h : Heroku) (env : Env) (s : St) : Except RunError String × St :=
  shell h env s (upgradeCmd h)

/-- The `Heroku.formation` property.  `if not self._formation:` uses
Python truthiness, so both `None` and the empty dict `{}` trigger a
fetch: GET the formation list, validate the response, build the dict
and cache it.  A cached non-empty dict is returned with no request. -/
def formation (h : Heroku) (env : Env) (s : St) :
    Except RunError (List (String × Int)) × St :=
  match s.formation_cache with
  | some (p :: rest) => (Except.ok (p :: rest), s)
  | _ =>
    let rs := apiRequest h env s (Request.getFormation h.app_name)
    match parse_response rs.1 with
    | Except.error e => (Except.error e, rs.2)
    | Except.ok _ =>
      let d := dictOfList rs.1.body
      (Except.ok d, { rs.2 with formation_cache := some d })

/-- `Heroku.scale_down`: PATCH the formation with every process type of
`self.formation` set to quantity 0 (reading `self.formation` may fetch),
then validate; the confirmation lines it prints are not modelled. -/
def scale_down (h : Heroku) (env : Env) (s : St) : Except RunError Unit × St :=
  bindM (formation h env s) (fun f s1 =>
    let updates := f.map (fun p => (p.1, (0 : Int)))
    let rs := apiRequest h env s1 (Request.patchFormation h.app_name updates)
    ((match parse_response rs.1 with
      | Except.error e => Except.error e
      | Except.ok _ => Except.ok ()), rs.2))

/-- `Heroku.scale_up`: PATCH the formation with the types and quantities
of `self.formation.items()` (reading `self.formation` may fetch if the
cache is falsy), then validate. -/
def scale_up (h : Heroku) (env : Env) (s : St) : Except RunError Unit × St :=
  bindM (formation h env s) (fun f s1 =>
    let updates := f
    let rs := apiRequest h env s1 (Request.patchFormation h.app_name updates)
    ((match parse_response rs.1 with
      | Except.error e => Except.error e
      | Except.ok _ => Except.ok ()), rs.2))

/-- `Heroku.set_maintenance`: PATCH the app resource with
`{maintenance: state}`, validate, and on success print the toggle line
(not modelled). -/
def set_maintenance (h : Heroku) (state : Bool) (env : Env) (s : St) :
    Except RunError Unit × St :=
  let rs := apiRequest h env s (Request.patchMaintenance h.app_name state)
  ((match parse_response rs.1 with
    | Except.error e => Except.error e
    | Except.ok _ => Except.ok ()), rs.2)

/-- `sleep(n)`: a blocking delay, recorded in the trace. -/
def sleepOp (n : Nat) (s : St) : St :=
  { s with trace := s.trace ++ [Event.sleepEv n] }

/-- `Heroku.migrate`: print the identifying lines (not modelled); if
`needs_migrate()` then enable maintenance, scale down, sleep 30, run the
upgrade (printing its output), scale up, sleep 30, disable maintenance;
otherwise print that migration is not needed and finish. -/
def migrate (h : Heroku) (env : Env) (s : St) : Except RunError Unit × St :=
  bindM (needs_migrate h env s) (fun b s1 =>
    if b then
      bindM (set_maintenance h true env s1) (fun _ s2 =>
      bindM (scale_down h env s2) (fun _ s3 =>
      let s4 := sleepOp 30 s3
      bindM (alembic h env s4) (fun _out s5 =>
      bindM (scale_up h env s5) (fun _ s6 =>
      let s7 := sleepOp 30 s6
      bindM (set_maintenance h false env s7) (fun _ s8 =>
        (Except.ok (), s8))))))
    else
      (Except.ok (), s1))

/-- The subsequence of API requests in a trace (ignoring shell
invocations, sleeps and headers). -/
def apiTrace (t : List Event) : List Request :=
  t.filterMap (fun e =>
    match e with
    | Event.apiEv req _ => some req
    | _ => none)

/-- Number of formation GET requests in a trace. -/
def countGets (t : List Event) : Nat :=
  (t.filter (fun e =>
    match e with
    | Event.apiEv (Request.getFormation _) _ => true
    | _ => false)).length

/-! ## Concrete instances used by counterexamples and witnesses -/

/-- A concrete client, as built by `main` from the CLI defaults. -/
def exApp : Heroku := mkHeroku "my_app" "etc/production.ini" "app:main" (some "s3cret")

/-- Oracle for a run where every API call succeeds, the formation is
`{web: 2, worker: 1}`, and the status check reports a pending
migration (its output lacks the sentinel `"head"`). -/
def envHappy : Env :=
  { api := fun _ r =>
      match r with
      | Request.getFormation _ => ⟨200, [("web", 2), ("worker", 1)]⟩
      | Request.patchFormation _ u => ⟨200, u⟩
      | Request.patchMaintenance _ _ => ⟨200, []⟩
    shell := fun _ _ => ⟨0, "7abc123 (current), not latest"⟩ }

/-- Oracle for a run whose status check reports an up-to-date schema. -/
def envUpToDate : Env :=
  { api := fun _ _ => ⟨200, []⟩
    shell := fun _ _ => ⟨0, "abc123 (head)"⟩ }

/-- Oracle where the first formation GET returns the empty list and a
later GET returns `{web: 5}`; everything succeeds. -/
def envEmptyFormation : Env :=
  { api := fun n r =>
      match r with
      | Request.getFormation _ => if n = 1 then ⟨200, []⟩ else ⟨200, [("web", 5)]⟩
      | Request.patchFormation _ u => ⟨200, u⟩
      | Request.patchMaintenance _ _ => ⟨200, []⟩
    shell := fun _ _ => ⟨0, "pending"⟩ }

/-- Oracle answering every API call with status 201 (created): not 200,
but also not in the 400–599 range that `raise_for_status` rejects. -/
def env201 : Env :=
  { api := fun _ _ => ⟨201, []⟩
    shell := fun _ _ => ⟨0, "pending"⟩ }

/-- Oracle whose external processes exit with status 3. -/
def envShellFail : Env :=
  { api := fun _ _ => ⟨200, []⟩
    shell := fun _ _ => ⟨3, ""⟩ }

/-- Oracle where formation PATCH requests fail with 503 while everything
else succeeds and a migration is reported pending. -/
def envScaleDownFail : Env :=
  { api := fun _ r =>
      match r with
      | Request.getFormation _ => ⟨200, [("web", 2), ("worker", 1)]⟩
      | Request.patchFormation _ _ => ⟨503, []⟩
      | Request.patchMaintenance _ _ => ⟨200, []⟩
    shell := fun _ _ => ⟨0, "pending"⟩ }

/-! ## C3: up-to-date schema means zero API calls -/

/-- Claim C3: if the status check's output contains the sentinel
`"head"` (schema up to date), `migrate` terminates successfully with a
trace containing only that one shell invocation — no formation read, no
maintenance toggle, no scale request, and the formation cache is left
untouched. -/
theorem migrate_up_to_date_no_api_calls (h : Heroku) (env : Env) (out : String)
    (hsh : env.shell 0 (currentCmd h) = ⟨0, out⟩)
    (hhead : pyIn "head" out = true) :
    migrate h env St.init =
      (Except.ok (),
       { formation_cache := none, trace := [Event.shellEv (currentCmd h)],
         nApi := 0, nShell := 1 }) := by
  simp [migrate, needs_migrate, shell, bindM, St.init, hsh, hhead]

/-- Witness for C3 at the concrete client and up-to-date oracle. -/
theorem migrate_up_to_date_no_api_calls_witness :
    migrate exApp envUpToDate St.init =
      (Except.ok (),
       { formation_cache := none, trace := [Event.shellEv (currentCmd exApp)],
         nApi := 0, nShell := 1 }) :=
  migrate_up_to_date_no_api_calls exApp envUpToDate "abc123 (head)" rfl (by decide)

/-! ## C6: a failing status check aborts before any API request -/

/-- Claim C6: if the status-check process exits nonzero, `migrate`
aborts with that `ProcessError` before issuing any API request: the
trace holds only the shell invocation, the API counter is still 0, and
the formation cache was never populated. -/
theorem migrate_status_check_failure_no_api (h : Heroku) (env : Env) (c : Nat) (out : String)
    (hsh : env.shell 0 (currentCmd h) = ⟨c, out⟩)
    (hc : c ≠ 0) :
    migrate h env St.init =
      (Except.error (RunError.processError c),
       { formation_cache := none, trace := [Event.shellEv (currentCmd h)],
         nApi := 0, nShell := 1 }) := by
  simp [migrate, needs_migrate, shell, bindM, St.init, hsh, hc]

/-- Witness for C6 with an oracle whose processes exit with status 3. -/
theorem migrate_status_check_failure_no_api_witness :
    migrate exApp envShellFail St.init =
      (Except.error (RunError.processError 3),
       { formation_cache := none, trace := [Event.shellEv (currentCmd exApp)],
         nApi := 0, nShell := 1 }) :=
  migrate_status_check_failure_no_api exApp envShellFail 3 "" rfl (by decide)

/-! ## C7: the migration decision is substring absence on stdout -/

/-- Claim C7: when the status command exits 0 with output `out`,
`needs_migrate` returns exactly the negation of the substring test
`"head" in out` — a pure function of the captured stdout with no other
parsing — and performs only that one shell invocation. -/
theorem needs_migrate_iff_head_absent (h : Heroku) (env : Env) (s : St) (out : String)
    (hsh : env.shell s.nShell (currentCmd h) = ⟨0, out⟩) :
    needs_migrate h env s =
      (Except.ok (!(pyIn "head" out)),
       { s with trace := s.trace ++ [Event.shellEv (currentCmd h)],
                nShell := s.nShell + 1 }) := by
  simp [needs_migrate, shell, bindM, hsh]

/-- Witness for C7: at the happy-path oracle the sentinel is absent and
the decision is `true` (migration needed). -/
theorem needs_migrate_iff_head_absent_witness :
    needs_migrate exApp envHappy St.init =
      (Except.ok (!(pyIn "head" "7abc123 (current), not latest")),
       { St.init with trace := St.init.trace ++ [Event.shellEv (currentCmd exApp)],
                      nShell := St.init.nShell + 1 }) :=
  needs_migrate_iff_head_absent exApp envHappy St.init "7abc123 (current), not latest" rfl

/-! ## C8: nonzero exit of either alembic invocation is a fatal ProcessError -/

/-- Claim C8: for both external-tool invocations — the status query in
`needs_migrate` and the upgrade in `alembic` — a nonzero exit status of
the process yields `Except.error (ProcessError c)`; in particular the
status query never turns a failed process into an `ok` "migration
needed" answer. -/
theorem shell_nonzero_exit_is_fatal (h : Heroku) (env : Env) (s : St)
    (c : Nat) (out : String) (c2 : Nat) (out2 : String)
    (h1 : env.shell s.nShell (currentCmd h) = ⟨c, out⟩) (hc : c ≠ 0)
    (h2 : env.shell s.nShell (upgradeCmd h) = ⟨c2, out2⟩) (hc2 : c2 ≠ 0) :
    needs_migrate h env s =
      (Except.error (RunError.processError c),
       { s with trace := s.trace ++ [Event.shellEv (currentCmd h)],
                nShell := s.nShell + 1 }) ∧
    alembic h env s =
      (Except.error (RunError.processError c2),
       { s with trace := s.trace ++ [Event.shellEv (upgradeCmd h)],
                nShell := s.nShell + 1 }) := by
  constructor
  · simp [needs_migrate, shell, bindM, h1, hc]
  · simp [alembic, shell, bindM, h2, hc2]

/-- Witness for C8 at the failing-process oracle. -/
theorem shell_nonzero_exit_is_fatal_witness :
    (needs_migrate exApp envShellFail St.init =
      (Except.error (RunError.processError 3),
       { St.init with trace := St.init.trace ++ [Event.shellEv (currentCmd exApp)],
                      nShell := St.init.nShell + 1 }) ∧
     alembic exApp envShellFail St.init =
      (Except.error (RunError.processError 3),
       { St.init with trace := St.init.trace ++ [Event.shellEv (upgradeCmd exApp)],
                      nShell := St.init.nShell + 1 })) :=
  shell_nonzero_exit_is_fatal exApp envShellFail St.init 3 "" 3 "" rfl (by decide) rfl (by decide)

/-! ## C4: response validation is `raise_for_status`, not a 200 check -/

/-- Counterexample to C4: a 201 response is not status 200, yet
`parse_response` returns `ok true` and a maintenance PATCH answered
with 201 succeeds — non-200 alone does not raise an `ApiError`. -/
theorem parse_response_201_succeeds :
    (201 : Nat) ≠ 200 ∧
    parse_response ⟨201, []⟩ = Except.ok true ∧
    (set_maintenance exApp true env201 St.init).1 = Except.ok () :=
  ⟨by decide, rfl, rfl⟩

/-- Claim C4 (amended): `parse_response` fails with
`ApiError status_code` exactly when the status code lies in 400–599 —
the range `raise_for_status` rejects — and returns success for every
other status code, including non-200 codes such as 201 or 302. -/
theorem parse_response_error_iff_4xx_5xx (res : ApiResponse) :
    (parse_response res = Except.error (RunError.apiError res.status_code) ↔
      400 ≤ res.status_code ∧ res.status_code < 600) ∧
    (parse_response res = Except.ok true ↔
      ¬(400 ≤ res.status_code ∧ res.status_code < 600)) := by
  by_cases hc : 400 ≤ res.status_code ∧ res.status_code < 600 <;>
    simp [parse_response, raise_for_status, hc]

/-! ## C9: the formation cache and Python truthiness -/

/-- Counterexample to C9: with `envEmptyFormation` the first formation
read of the run returns the empty mapping; because `if not
self._formation:` treats the empty dict as unset, the scale-up access
re-fetches, so the run issues two formation GET requests, not at most
one. -/
theorem formation_fetched_twice_on_empty :
    envEmptyFormation.api 1 (Request.getFormation "my_app") = ⟨200, []⟩ ∧
    countGets (migrate exApp envEmptyFormation St.init).2.trace = 2 :=
  ⟨rfl, rfl⟩

/-- Claim C9 (amended): a cached non-empty formation is reused by every
later access with no further GET request and no state change at all;
only a `None` or empty cache triggers a fetch. -/
theorem formation_cached_nonempty_reused (h : Heroku) (env : Env) (s : St)
    (p : String × Int) (rest : List (String × Int))
    (hc : s.formation_cache = some (p :: rest)) :
    formation h env s = (Except.ok (p :: rest), s) := by
  simp [formation, hc]

/-- Witness for amended C9: with `{web: 2}` cached, `formation` returns
it and leaves the state untouched. -/
theorem formation_cached_nonempty_reused_witness :
    formation exApp envHappy
      { formation_cache := some [("web", 2)], trace := [], nApi := 1, nShell := 1 } =
      (Except.ok [("web", 2)],
       { formation_cache := some [("web", 2)], trace := [], nApi := 1, nShell := 1 }) :=
  formation_cached_nonempty_reused exApp envHappy
    { formation_cache := some [("web", 2)], trace := [], nApi := 1, nShell := 1 }
    ("web", 2) [] rfl

/-! ## C10: headers carried by every request when the secret is unset -/

/-- Checks that an event, if it is an API request, carries exactly the
header list `H`; non-API events carry no headers and pass. -/
def eventHeadersOk (H : List (String × String)) : Event → Bool
  | Event.apiEv _ hs => decide (hs = H)
  | Event.shellEv _ => true
  | Event.sleepEv _ => true

/-- Every API event of the trace carries exactly the header list `H`. -/
def traceOk (H : List (String × String)) (t : List Event) : Bool :=
  t.all (eventHeadersOk H)

/-- Sequencing preserves any property of the final state that each part
preserves. -/
theorem bindM_preserves {α β : Type} (P : St → Prop)
    (x : Except RunError α × St) (f : α → St → Except RunError β × St)
    (hx : P x.2) (hf : ∀ a s, P s → P (f a s).2) :
    P (bindM x f).2 := by
  rcases x with ⟨r, s⟩
  cases r with
  | ok a => exact hf a s hx
  | error e => exact hx

/-- An API request appends one event carrying the session headers. -/
theorem traceOk_apiRequest (h : Heroku) (env : Env) (s : St) (req : Request)
    (hs : traceOk h.session_headers s.trace = true) :
    traceOk h.session_headers (apiRequest h env s req).2.trace = true := by
  simp [apiRequest, traceOk, List.all_append, eventHeadersOk] at *
  exact hs

/-- A shell invocation appends no API event. -/
theorem traceOk_shell (h : Heroku) (env : Env) (s : St) (cmd : String)
    (hs : traceOk h.session_headers s.trace = true) :
    traceOk h.session_headers (shell h env s cmd).2.trace = true := by
  unfold traceOk at hs ⊢
  by_cases hc : (env.shell s.nShell cmd).exitCode = 0 <;>
    simp [shell, hc, List.all_append, eventHeadersOk, hs]

/-- `needs_migrate` adds only a shell event. -/
theorem traceOk_needs_migrate (h : Heroku) (env : Env) (s : St)
    (hs : traceOk h.session_headers s.trace = true) :
    traceOk h.session_headers (needs_migrate h env s).2.trace = true := by
  unfold needs_migrate
  refine bindM_preserves (fun st => traceOk h.session_headers st.trace = true) _ _
    (traceOk_shell h env s _ hs) (fun _ s' hp => hp)

/-- `alembic` adds only a shell event. -/
theorem traceOk_alembic (h : Heroku) (env : Env) (s : St)
    (hs : traceOk h.session_headers s.trace = true) :
    traceOk h.session_headers (alembic h env s).2.trace = true := by
  unfold alembic
  exact traceOk_shell h env s _ hs

/-- Every API event `formation` appends carries the session headers. -/
theorem traceOk_formation (h : Heroku) (env : Env) (s : St)
    (hs : traceOk h.session_headers s.trace = true) :
    traceOk h.session_headers (formation h env s).2.trace = true := by
  unfold formation
  split
  · exact hs
  · have h1 := traceOk_apiRequest h env s (Request.getFormation h.app_name) hs
    dsimp only
    cases hpr :
        parse_response (apiRequest h env s (Request.getFormation h.app_name)).1 <;>
      simp only [hpr] <;> exact h1

/-- Every API event `scale_down` appends carries the session headers. -/
theorem traceOk_scale_down (h : Heroku) (env : Env) (s : St)
    (hs : traceOk h.session_headers s.trace = true) :
    traceOk h.session_headers (scale_down h env s).2.trace = true := by
  unfold scale_down
  refine bindM_preserves (fun st => traceOk h.session_headers st.trace = true) _ _
    (traceOk_formation h env s hs) (fun f s1 hp => ?_)
  exact traceOk_apiRequest h env s1
    (Request.patchFormation h.app_name (f.map (fun p => (p.1, (0 : Int))))) hp

/-- Every API event `scale_up` appends carries the session headers. -/
theorem traceOk_scale_up (h : Heroku) (env : Env) (s : St)
    (hs : traceOk h.session_headers s.trace = true) :
    traceOk h.session_headers (scale_up h env s).2.trace = true := by
  unfold scale_up
  refine bindM_preserves (fun st => traceOk h.session_headers st.trace = true) _ _
    (traceOk_formation h env s hs) (fun f s1 hp => ?_)
  exact traceOk_apiRequest h env s1 (Request.patchFormation h.app_name f) hp

/-- The maintenance PATCH carries the session headers. -/
theorem traceOk_set_maintenance (h : Heroku) (b : Bool) (env : Env) (s : St)
    (hs : traceOk h.session_headers s.trace = true) :
    traceOk h.session_headers (set_maintenance h b env s).2.trace = true := by
  unfold set_maintenance
  exact traceOk_apiRequest h env s (Request.patchMaintenance h.app_name b) hs

/-- Sleeping appends no API event. -/
theorem traceOk_sleepOp (h : Heroku) (n : Nat) (s : St)
    (hs : traceOk h.session_headers s.trace = true) :
    traceOk h.session_headers (sleepOp n s).trace = true := by
  simpa [sleepOp, traceOk, List.all_append, eventHeadersOk] using hs

/-- Every API event of a whole `migrate` run carries the session
headers fixed at construction. -/
theorem traceOk_migrate (h : Heroku) (env : Env) (s : St)
    (hs : traceOk h.session_headers s.trace = true) :
    traceOk h.session_headers (migrate h env s).2.trace = true := by
  unfold migrate
  refine bindM_preserves (fun st => traceOk h.session_headers st.trace = true) _ _
    (traceOk_needs_migrate h env s hs) (fun b s1 hp1 => ?_)
  dsimp only
  split
  · refine bindM_preserves (fun st => traceOk h.session_headers st.trace = true) _ _
      (traceOk_set_maintenance h true env s1 hp1) (fun _ s2 hp2 => ?_)
    refine bindM_preserves (fun st => traceOk h.session_headers st.trace = true) _ _
      (traceOk_scale_down h env s2 hp2) (fun _ s3 hp3 => ?_)
    refine bindM_preserves (fun st => traceOk h.session_headers st.trace = true) _ _
      (traceOk_alembic h env _ (traceOk_sleepOp h 30 s3 hp3)) (fun _ s5 hp5 => ?_)
    refine bindM_preserves (fun st => traceOk h.session_headers st.trace = true) _ _
      (traceOk_scale_up h env s5 hp5) (fun _ s6 hp6 => ?_)
    refine bindM_preserves (fun st => traceOk h.session_headers st.trace = true) _ _
      (traceOk_set_maintenance h false env _ (traceOk_sleepOp h 30 s6 hp6))
      (fun _ s8 hp8 => hp8)
  · exact hp1

/-- Claim C10: with the bearer-token environment variable unset, client
construction succeeds and yields the literal header
`Authorization: Bearer None`, and every API request of any run carries
exactly those session headers (so in particular the `Bearer None`
authorization). -/
theorem unset_secret_bearer_none (app ini sec : String) (env : Env) :
    ("Authorization", "Bearer None") ∈ (mkHeroku app ini sec none).session_headers ∧
    traceOk (mkHeroku app ini sec none).session_headers
      (migrate (mkHeroku app ini sec none) env St.init).2.trace = true := by
  constructor
  · simp [mkHeroku, pyStr, auth_key]
  · exact traceOk_migrate (mkHeroku app ini sec none) env St.init rfl

/-! ## Helper lemmas about response validation -/

/-- A response whose status lies outside 400–599 passes validation. -/
theorem parse_response_ok (res : ApiResponse)
    (hres : ¬(400 ≤ res.status_code ∧ res.status_code < 600)) :
    parse_response res = Except.ok true := by
  simp [parse_response, raise_for_status, hres]

/-- A response whose status lies in 400–599 fails validation with an
`ApiError` carrying that status. -/
theorem parse_response_fail (res : ApiResponse)
    (hres : 400 ≤ res.status_code ∧ res.status_code < 600) :
    parse_response res = Except.error (RunError.apiError res.status_code) := by
  simp [parse_response, raise_for_status, hres]

/-! ## C1: the remote-call sequence of a needed migration -/

/-- Counterexample to C1: in the scenario (formation `{web: 2, worker: 1}`,
status check reports a pending migration, every call succeeds) the API
sequence starts with the maintenance PATCH, not with the formation GET:
the formation is only fetched lazily inside `scale_down`, after
`set_maintenance(True)`. -/
theorem migrate_api_order_counterexample :
    apiTrace (migrate exApp envHappy St.init).2.trace =
      [Request.patchMaintenance "my_app" true,
       Request.getFormation "my_app",
       Request.patchFormation "my_app" [("web", 0), ("worker", 0)],
       Request.patchFormation "my_app" [("web", 2), ("worker", 1)],
       Request.patchMaintenance "my_app" false] ∧
    apiTrace (migrate exApp envHappy St.init).2.trace ≠
      [Request.getFormation "my_app",
       Request.patchMaintenance "my_app" true,
       Request.patchFormation "my_app" [("web", 0), ("worker", 0)],
       Request.patchFormation "my_app" [("web", 2), ("worker", 1)],
       Request.patchMaintenance "my_app" false] :=
  ⟨rfl, by decide⟩

/-- Claim C1 (amended): when the status check reports a pending
migration, every response succeeds, and the fetched formation is
non-empty, the run's effect sequence is exactly: status shell command,
PATCH maintenance=true, GET formation, PATCH formation with every
process type at quantity 0, a 30-unit sleep, the upgrade shell command,
PATCH formation with the originally captured quantities, a 30-unit
sleep, PATCH maintenance=false — and the run terminates successfully. -/
theorem migrate_needed_call_sequence (h : Heroku) (env : Env)
    (out out2 : String) (st0 st1 st2 st3 st4 : Nat)
    (b0 body b2 b3 b4 : List (String × Int)) (p : String × Int) (ftl : List (String × Int))
    (hsh : env.shell 0 (currentCmd h) = ⟨0, out⟩)
    (hhead : pyIn "head" out = false)
    (hm : env.api 0 (Request.patchMaintenance h.app_name true) = ⟨st0, b0⟩)
    (hst0 : ¬(400 ≤ st0 ∧ st0 < 600))
    (hget : env.api 1 (Request.getFormation h.app_name) = ⟨st1, body⟩)
    (hst1 : ¬(400 ≤ st1 ∧ st1 < 600))
    (hdict : dictOfList body = p :: ftl)
    (hsd : env.api 2 (Request.patchFormation h.app_name
             ((p :: ftl).map (fun q => (q.1, (0 : Int))))) = ⟨st2, b2⟩)
    (hst2 : ¬(400 ≤ st2 ∧ st2 < 600))
    (hup : env.shell 1 (upgradeCmd h) = ⟨0, out2⟩)
    (hsu : env.api 3 (Request.patchFormation h.app_name (p :: ftl)) = ⟨st3, b3⟩)
    (hst3 : ¬(400 ≤ st3 ∧ st3 < 600))
    (hmf : env.api 4 (Request.patchMaintenance h.app_name false) = ⟨st4, b4⟩)
    (hst4 : ¬(400 ≤ st4 ∧ st4 < 600)) :
    migrate h env St.init =
      (Except.ok (),
       { formation_cache := some (p :: ftl),
         trace := [Event.shellEv (currentCmd h),
                   Event.apiEv (Request.patchMaintenance h.app_name true) h.session_headers,
                   Event.apiEv (Request.getFormation h.app_name) h.session_headers,
                   Event.apiEv (Request.patchFormation h.app_name
                     ((p :: ftl).map (fun q => (q.1, (0 : Int))))) h.session_headers,
                   Event.sleepEv 30,
                   Event.shellEv (upgradeCmd h),
                   Event.apiEv (Request.patchFormation h.app_name (p :: ftl)) h.session_headers,
                   Event.sleepEv 30,
                   Event.apiEv (Request.patchMaintenance h.app_name false) h.session_headers],
         nApi := 5, nShell := 2 }) := by
  have hp0 : parse_response ⟨st0, b0⟩ = Except.ok true := parse_response_ok _ hst0
  have hp1 : parse_response ⟨st1, body⟩ = Except.ok true := parse_response_ok _ hst1
  have hp2 : parse_response ⟨st2, b2⟩ = Except.ok true := parse_response_ok _ hst2
  have hp3 : parse_response ⟨st3, b3⟩ = Except.ok true := parse_response_ok _ hst3
  have hp4 : parse_response ⟨st4, b4⟩ = Except.ok true := parse_response_ok _ hst4
  simp only [List.map_cons] at hsd
  simp [migrate, needs_migrate, alembic, shell, bindM, St.init, set_maintenance,
        scale_down, scale_up, formation, apiRequest, sleepOp,
        hsh, hhead, hm, hp0, hget, hp1, hdict, hsd, hp2, hup, hsu, hp3, hmf, hp4]

/-- Witness for amended C1 at the scenario formation `{web: 2, worker: 1}`. -/
theorem migrate_needed_call_sequence_witness :
    migrate exApp envHappy St.init =
      (Except.ok (),
       { formation_cache := some [("web", 2), ("worker", 1)],
         trace := [Event.shellEv (currentCmd exApp),
                   Event.apiEv (Request.patchMaintenance "my_app" true) exApp.session_headers,
                   Event.apiEv (Request.getFormation "my_app") exApp.session_headers,
                   Event.apiEv (Request.patchFormation "my_app" [("web", 0), ("worker", 0)])
                     exApp.session_headers,
                   Event.sleepEv 30,
                   Event.shellEv (upgradeCmd exApp),
                   Event.apiEv (Request.patchFormation "my_app" [("web", 2), ("worker", 1)])
                     exApp.session_headers,
                   Event.sleepEv 30,
                   Event.apiEv (Request.patchMaintenance "my_app" false) exApp.session_headers],
         nApi := 5, nShell := 2 }) :=
  migrate_needed_call_sequence exApp envHappy
    "7abc123 (current), not latest" "7abc123 (current), not latest"
    200 200 200 200 200
    [] [("web", 2), ("worker", 1)] [("web", 0), ("worker", 0)] [("web", 2), ("worker", 1)] []
    ("web", 2) [("worker", 1)]
    rfl (by decide) rfl (by decide) rfl (by decide) rfl rfl (by decide) rfl rfl (by decide)
    rfl (by decide)

/-! ## C5: a failing scale-down short-circuits the rest of the run -/

/-- Claim C5: when the status check reports a pending migration, the
maintenance PATCH and formation GET succeed, but the scale-down PATCH
fails (status 400–599), `migrate` aborts with that `ApiError` and the
trace ends at the scale-down request: the upgrade command is never
invoked, scale-up is never requested, and maintenance is never
disabled. -/
theorem migrate_scale_down_failure_short_circuits (h : Heroku) (env : Env)
    (out : String) (st0 st1 st2 : Nat) (b0 body b2 : List (String × Int))
    (hsh : env.shell 0 (currentCmd h) = ⟨0, out⟩)
    (hhead : pyIn "head" out = false)
    (hm : env.api 0 (Request.patchMaintenance h.app_name true) = ⟨st0, b0⟩)
    (hst0 : ¬(400 ≤ st0 ∧ st0 < 600))
    (hget : env.api 1 (Request.getFormation h.app_name) = ⟨st1, body⟩)
    (hst1 : ¬(400 ≤ st1 ∧ st1 < 600))
    (hsd : env.api 2 (Request.patchFormation h.app_name
             ((dictOfList body).map (fun q => (q.1, (0 : Int))))) = ⟨st2, b2⟩)
    (hst2 : 400 ≤ st2 ∧ st2 < 600) :
    migrate h env St.init =
      (Except.error (RunError.apiError st2),
       { formation_cache := some (dictOfList body),
         trace := [Event.shellEv (currentCmd h),
                   Event.apiEv (Request.patchMaintenance h.app_name true) h.session_headers,
                   Event.apiEv (Request.getFormation h.app_name) h.session_headers,
                   Event.apiEv (Request.patchFormation h.app_name
                     ((dictOfList body).map (fun q => (q.1, (0 : Int))))) h.session_headers],
         nApi := 3, nShell := 1 }) := by
  have hp0 : parse_response ⟨st0, b0⟩ = Except.ok true := parse_response_ok _ hst0
  have hp1 : parse_response ⟨st1, body⟩ = Except.ok true := parse_response_ok _ hst1
  have hp2 : parse_response ⟨st2, b2⟩ = Except.error (RunError.apiError st2) :=
    parse_response_fail _ hst2
  simp [migrate, needs_migrate, shell, bindM, St.init, set_maintenance,
        scale_down, formation, apiRequest,
        hsh, hhead, hm, hp0, hget, hp1, hsd, hp2]

/-- Witness for C5: the 503-on-PATCH oracle aborts the run right after
the scale-down request. -/
theorem migrate_scale_down_failure_short_circuits_witness :
    migrate exApp envScaleDownFail St.init =
      (Except.error (RunError.apiError 503),
       { formation_cache := some [("web", 2), ("worker", 1)],
         trace := [Event.shellEv (currentCmd exApp),
                   Event.apiEv (Request.patchMaintenance "my_app" true) exApp.session_headers,
                   Event.apiEv (Request.getFormation "my_app") exApp.session_headers,
                   Event.apiEv (Request.patchFormation "my_app" [("web", 0), ("worker", 0)])
                     exApp.session_headers],
         nApi := 3, nShell := 1 }) :=
  migrate_scale_down_failure_short_circuits exApp envScaleDownFail
    "pending" 200 200 503 [] [("web", 2), ("worker", 1)] []
    rfl (by decide) rfl (by decide) rfl (by decide) rfl (by decide)

/-! ## C2: the scale-down/scale-up round trip on the captured formation -/

/-- Counterexample to C2: with `envEmptyFormation` the formation
captured before scale-down is the empty mapping, yet the scale-up PATCH
body is `{web: 5}` — the empty dict is falsy, so scale-up re-fetches
instead of reusing the captured value, and the re-fetched formation
determines the request. -/
theorem scale_up_body_differs_on_empty_capture :
    envEmptyFormation.api 1 (Request.getFormation "my_app") = ⟨200, []⟩ ∧
    apiTrace (migrate exApp envEmptyFormation St.init).2.trace =
      [Request.patchMaintenance "my_app" true,
       Request.getFormation "my_app",
       Request.patchFormation "my_app" [],
       Request.getFormation "my_app",
       Request.patchFormation "my_app" [("web", 5)],
       Request.patchMaintenance "my_app" false] ∧
    ([("web", 5)] : List (String × Int)) ≠ [] :=
  ⟨rfl, rfl, by decide⟩

/-- Claim C2 (amended): for every non-empty formation captured by the
GET inside scale-down, running scale-down and then scale-up issues
exactly three requests — the GET, a PATCH with every captured type at
quantity 0, and a PATCH whose body is exactly the captured types and
quantities — so the round trip restores precisely the pre-migration
counts. -/
theorem scale_round_trip_nonempty (h : Heroku) (env : Env) (s : St)
    (st0 st1 : Nat) (body b1 : List (String × Int)) (p : String × Int)
    (ftl : List (String × Int))
    (hcache : s.formation_cache = none)
    (hget : env.api s.nApi (Request.getFormation h.app_name) = ⟨st0, body⟩)
    (hst0 : ¬(400 ≤ st0 ∧ st0 < 600))
    (hdict : dictOfList body = p :: ftl)
    (hsd : env.api (s.nApi + 1) (Request.patchFormation h.app_name
             ((p :: ftl).map (fun q => (q.1, (0 : Int))))) = ⟨st1, b1⟩)
    (hst1 : ¬(400 ≤ st1 ∧ st1 < 600)) :
    (bindM (scale_down h env s) (fun _ s2 => scale_up h env s2)).2.trace =
      s.trace ++
        [Event.apiEv (Request.getFormation h.app_name) h.session_headers,
         Event.apiEv (Request.patchFormation h.app_name
           ((p :: ftl).map (fun q => (q.1, (0 : Int))))) h.session_headers,
         Event.apiEv (Request.patchFormation h.app_name (p :: ftl)) h.session_headers] := by
  have hp0 : parse_response ⟨st0, body⟩ = Except.ok true := parse_response_ok _ hst0
  have hp1 : parse_response ⟨st1, b1⟩ = Except.ok true := parse_response_ok _ hst1
  simp only [List.map_cons] at hsd
  simp [scale_down, scale_up, formation, apiRequest, bindM, hcache,
        hget, hp0, hdict, hsd, hp1]

/-- Witness for amended C2 at the formation `{web: 2, worker: 1}`. -/
theorem scale_round_trip_nonempty_witness :
    (bindM (scale_down exApp envHappy St.init)
        (fun _ s2 => scale_up exApp envHappy s2)).2.trace =
      St.init.trace ++
        [Event.apiEv (Request.getFormation "my_app") exApp.session_headers,
         Event.apiEv (Request.patchFormation "my_app" [("web", 0), ("worker", 0)])
           exApp.session_headers,
         Event.apiEv (Request.patchFormation "my_app" [("web", 2), ("worker", 1)])
           exApp.session_headers] :=
  scale_round_trip_nonempty exApp envHappy St.init 200 200
    [("web", 2), ("worker", 1)] [("web", 0), ("worker", 0)] ("web", 2) [("worker", 1)]
    rfl rfl (by decide) rfl rfl (by decide)
